import Mathlib

/-
Verification of the Abode data-consistency engine.

This file gives a shallow embedding of the persistence layer
(src/services/db.ts) and of the status-derivation and cascade helpers
embedded in the view layer (src/views/TenantList.vue,
src/views/AlertsTodo.vue, src/views/RentTracking.vue), and proves the
testable properties stated in the specification against it.

Modelling conventions:
- Collections are ordered lists, exactly as the storage layer holds them.
- Record types are reconstructed from their uses in the source and from
  section 3 of the specification (the types module itself is not part of
  the provided sources; every field below is read or written by the
  provided code).
- Date strings are identified with their parsed epoch timestamps and
  modelled as Nat; amounts are modelled as Int.
- Each write operation returns the resulting collection together with a
  Bool that records whether a storage write was performed; repository
  operations that report success or failure to the caller return that
  report as well.
- Interactive confirm dialogs are modelled by an explicit Bool argument,
  and the client-generated random id by an explicit String argument.
-/

namespace Abode

/-- Property record, from section 3 of the spec and PropertyList usage:
id, name, address, rooms, floors and the archived flag. -/
structure Property where
  id : String
  name : String
  address : String
  rooms : Int
  floors : Int
  archive : Bool
deriving Repr, DecidableEq

/-- Tenant record, from section 3 of the spec and TenantList usage. -/
structure Tenant where
  id : String
  name : String
  rent : Int
  leaseStart : Nat
  leaseEnd : Nat
  rentStatus : String
  propertyId : String
  floor : Nat
  room : String
  archive : Bool
deriving Repr, DecidableEq

/-- Rent payment record, from section 3 of the spec and RentTracking usage. -/
structure RentPayment where
  id : String
  tenantId : String
  amount : Int
  date : Nat
  status : String
  month : String
  archive : Bool
deriving Repr, DecidableEq

/-- Todo record, from section 3 of the spec and AlertsTodo usage. -/
structure TodoItem where
  id : String
  text : String
  completed : Bool
  createdAt : Nat
deriving Repr, DecidableEq

/-- User record, from section 3 of the spec and useAuth usage. -/
structure User where
  id : String
  username : String
  name : String
  password : String
deriving Repr, DecidableEq

namespace Db

/-- Result shape of db.addUser: a success flag plus an optional message
(src/services/db.ts lines 75-91). -/
structure AddUserResult where
  success : Bool
  message : Option String
  users : List User
deriving Repr, DecidableEq

/-- db.addUser (src/services/db.ts lines 75-91): rejects a username that an
existing user already holds up to lowercasing, otherwise appends. -/
def addUser (users : List User) (user : User) : AddUserResult :=
  match users.find? (fun u => u.username.toLower == user.username.toLower) with
  | some _ => ⟨false, some "Username is already taken.", users⟩
  | none => ⟨true, none, users ++ [user]⟩

/-- Result shape of db.updateUser (src/services/db.ts lines 106-123). -/
structure UpdateUserResult where
  success : Bool
  message : Option String
  users : List User
deriving Repr, DecidableEq

/-- db.updateUser (src/services/db.ts lines 106-123): replaces the record
with the matching id, and reports a failure message when no id matches. -/
def updateUser (users : List User) (updatedUser : User) : UpdateUserResult :=
  match users.findIdx? (fun u => u.id == updatedUser.id) with
  | none => ⟨false, some "User not found.", users⟩
  | some index => ⟨true, none, users.set index updatedUser⟩

/-- db.addProperty (src/services/db.ts lines 133-140): append. -/
def addProperty (properties : List Property) (property : Property) : List Property :=
  properties ++ [property]

/-- db.updateProperty (src/services/db.ts lines 141-153): replace by id,
warn-only no-op when the id is not found. The Bool records whether the
collection was written back. -/
def updateProperty (properties : List Property) (property : Property) :
    List Property × Bool :=
  match properties.findIdx? (fun p => p.id == property.id) with
  | some index => (properties.set index property, true)
  | none => (properties, false)

/-- db.deleteProperty (src/services/db.ts lines 154-166): id-filtered
removal, written back only when something was removed. -/
def deleteProperty (properties : List Property) (id : String) :
    List Property × Bool :=
  let filtered := properties.filter (fun p => !(p.id == id))
  if filtered.length < properties.length then (filtered, true)
  else (properties, false)

/-- db.addTenant (src/services/db.ts lines 176-183): append. -/
def addTenant (tenants : List Tenant) (tenant : Tenant) : List Tenant :=
  tenants ++ [tenant]

/-- db.updateTenant (src/services/db.ts lines 184-196): replace by id,
warn-only no-op when the id is not found. -/
def updateTenant (tenants : List Tenant) (tenant : Tenant) :
    List Tenant × Bool :=
  match tenants.findIdx? (fun t => t.id == tenant.id) with
  | some index => (tenants.set index tenant, true)
  | none => (tenants, false)

/-- db.deleteTenant (src/services/db.ts lines 197-209): id-filtered
removal, written back only when something was removed. -/
def deleteTenant (tenants : List Tenant) (id : String) :
    List Tenant × Bool :=
  let filtered := tenants.filter (fun t => !(t.id == id))
  if filtered.length < tenants.length then (filtered, true)
  else (tenants, false)

/-- db.addPayment (src/services/db.ts lines 219-226): append. -/
def addPayment (payments : List RentPayment) (payment : RentPayment) :
    List RentPayment :=
  payments ++ [payment]

/-- db.updatePayment (src/services/db.ts lines 227-239): replace by id,
warn-only no-op when the id is not found. -/
def updatePayment (payments : List RentPayment) (payment : RentPayment) :
    List RentPayment × Bool :=
  match payments.findIdx? (fun p => p.id == payment.id) with
  | some index => (payments.set index payment, true)
  | none => (payments, false)

/-- db.deletePayment (src/services/db.ts lines 240-252): id-filtered
removal, written back only when something was removed. -/
def deletePayment (payments : List RentPayment) (id : String) :
    List RentPayment × Bool :=
  let filtered := payments.filter (fun p => !(p.id == id))
  if filtered.length < payments.length then (filtered, true)
  else (payments, false)

/-- db.updateTodo (src/services/db.ts lines 272-284): replace by id,
warn-only no-op when the id is not found. -/
def updateTodo (todos : List TodoItem) (todo : TodoItem) :
    List TodoItem × Bool :=
  match todos.findIdx? (fun t => t.id == todo.id) with
  | some index => (todos.set index todo, true)
  | none => (todos, false)

/-- db.deleteTodo (src/services/db.ts lines 286-298): id-filtered removal,
written back only when something was removed. -/
def deleteTodo (todos : List TodoItem) (id : String) :
    List TodoItem × Bool :=
  let filtered := todos.filter (fun t => !(t.id == id))
  if filtered.length < todos.length then (filtered, true)
  else (todos, false)

end Db

namespace TenantList

/-- getPropertyArchivedStatus (src/views/TenantList.vue lines 30-33):
archived flag of the matching property, false when the property is
missing. -/
def getPropertyArchivedStatus (properties : List Property)
    (propertyId : String) : Bool :=
  match properties.find? (fun p => p.id == propertyId) with
  | some property => property.archive
  | none => false

/-- isEffectivelyArchived (src/views/TenantList.vue lines 36-40): the
individual archived flag of the tenant, or the archived status of the
referenced property. -/
def isEffectivelyArchived (properties : List Property) (tenant : Tenant) :
    Bool :=
  tenant.archive || getPropertyArchivedStatus properties tenant.propertyId

/-- getLatestRentStatus (src/views/TenantList.vue lines 237-260): the
sentinel for a missing tenant, the archive sentinel for an effectively
archived tenant, otherwise the status of the first payment after sorting
the payments of the tenant by date descending, with a sentinel when the
tenant has no payments. The JavaScript sort comparator b.date minus
a.date is modelled by a stable merge sort with the matching order. -/
def getLatestRentStatus (properties : List Property) (tenants : List Tenant)
    (payments : List RentPayment) (tenantId : String) : String :=
  match tenants.find? (fun t => t.id == tenantId) with
  | none => "n/a"
  | some tenantObj =>
    if isEffectivelyArchived properties tenantObj then "archive"
    else
      match (payments.filter (fun p => p.tenantId == tenantId)).mergeSort
          (fun a b => decide (b.date ≤ a.date)) with
      | [] => "no payments"
      | p :: _ => p.status

/-- deleteTenant (src/views/TenantList.vue lines 176-198): looks the tenant
up, asks for confirmation, deletes every associated payment through
db.deletePayment, then removes the tenant through db.deleteTenant. The
confirm dialog answer is the Bool argument. -/
def deleteTenant (tenants : List Tenant) (payments : List RentPayment)
    (id : String) (confirmed : Bool) : List Tenant × List RentPayment :=
  match tenants.find? (fun t => t.id == id) with
  | none => (tenants, payments)
  | some _ =>
    let associatedPayments := payments.filter (fun p => p.tenantId == id)
    if 0 < associatedPayments.length then
      if confirmed then
        ((Db.deleteTenant tenants id).1,
          associatedPayments.foldl
            (fun acc payment => (Db.deletePayment acc payment.id).1) payments)
      else (tenants, payments)
    else
      if confirmed then ((Db.deleteTenant tenants id).1, payments)
      else (tenants, payments)

end TenantList

namespace AlertsTodo

/-- getPropertyArchivedStatus (src/views/AlertsTodo.vue lines 47-51):
false on an empty snapshot, else the archived flag of the matching
property, false when missing. -/
def getPropertyArchivedStatus (properties : List Property)
    (propertyId : String) : Bool :=
  if properties.length == 0 then false
  else
    match properties.find? (fun p => p.id == propertyId) with
    | some property => property.archive
    | none => false

/-- isTenantEffectivelyArchived (src/views/AlertsTodo.vue lines 52-55): a
missing tenant is treated as archived, otherwise the individual flag or
the archived status of the referenced property. -/
def isTenantEffectivelyArchived (properties : List Property)
    (tenant : Option Tenant) : Bool :=
  match tenant with
  | none => true
  | some t => t.archive || getPropertyArchivedStatus properties t.propertyId

/-- The active tenants of monthlyRentStatus (src/views/AlertsTodo.vue
lines 121-123): tenants that are not effectively archived and have a
positive rent. -/
def activeTenantsOf (properties : List Property) (tenants : List Tenant) :
    List Tenant :=
  tenants.filter (fun tenant =>
    !(isTenantEffectivelyArchived properties (some tenant))
      && decide (0 < tenant.rent))

/-- The payments of the current calendar month (src/views/AlertsTodo.vue
lines 128-135): date within the inclusive month window. -/
def paymentsInMonth (payments : List RentPayment)
    (startOfMonth endOfMonth : Nat) : List RentPayment :=
  payments.filter (fun p =>
    decide (startOfMonth ≤ p.date) && decide (p.date ≤ endOfMonth))

/-- The amount a given tenant paid inside the month window
(src/views/AlertsTodo.vue lines 141-146): sum over the filtered
payments of that tenant. -/
def tenantMonthSum (payments : List RentPayment)
    (startOfMonth endOfMonth : Nat) (tenantId : String) : Int :=
  ((paymentsInMonth payments startOfMonth endOfMonth).filter
      (fun p => p.tenantId == tenantId)).foldl
    (fun sum p => sum + p.amount) 0

/-- Result shape of monthlyRentStatus (src/views/AlertsTodo.vue
lines 98-163). -/
structure RentSummary where
  activeTenantsCount : Nat
  paidTenantsCount : Nat
  totalExpectedRent : Int
  totalCollectedThisMonth : Int
deriving Repr, DecidableEq

/-- monthlyRentStatus (src/views/AlertsTodo.vue lines 98-163): counts and
sums over active tenants, total collected inside the month window, and
the number of active tenants whose in-month payments sum to at least
their rent. The empty-tenants early return of the source is kept. -/
def monthlyRentStatus (properties : List Property) (tenants : List Tenant)
    (payments : List RentPayment) (startOfMonth endOfMonth : Nat) :
    RentSummary :=
  if tenants.length == 0 then ⟨0, 0, 0, 0⟩
  else
    ⟨(activeTenantsOf properties tenants).length,
      (activeTenantsOf properties tenants).countP (fun tenant =>
        decide (tenant.rent ≤
          tenantMonthSum payments startOfMonth endOfMonth tenant.id)),
      (activeTenantsOf properties tenants).foldl
        (fun sum tenant => sum + tenant.rent) 0,
      (paymentsInMonth payments startOfMonth endOfMonth).foldl
        (fun sum p => sum + p.amount) 0⟩

end AlertsTodo

namespace RentTracking

/-- getPropertyArchivedStatus (src/views/RentTracking.vue lines 24-27):
archived flag of the matching property, false when missing. -/
def getPropertyArchivedStatus (properties : List Property)
    (propertyId : String) : Bool :=
  match properties.find? (fun p => p.id == propertyId) with
  | some property => property.archive
  | none => false

/-- isTenantEffectivelyArchived (src/views/RentTracking.vue lines 30-33):
a missing tenant is treated as archived, otherwise the individual flag or
the archived status of the referenced property. -/
def isTenantEffectivelyArchived (properties : List Property)
    (tenant : Option Tenant) : Bool :=
  match tenant with
  | none => true
  | some t => t.archive || getPropertyArchivedStatus properties t.propertyId

/-- The newPayment form state of RentTracking (src/views/RentTracking.vue
lines 14-21). Option models the empty form fields rejected by the
falsiness checks of the source. -/
structure NewPayment where
  tenantId : String
  amount : Option Int
  date : Option Nat
  status : String
  month : String
  archive : Bool
deriving Repr, DecidableEq

/-- The rejection reasons of addOrUpdatePayment, in source order
(src/views/RentTracking.vue lines 135-157). -/
inductive PaymentError where
  | validationFailed
  | tenantArchived
  | amountExceedsRent
  | notConfirmed
deriving Repr, DecidableEq

/-- addOrUpdatePayment (src/views/RentTracking.vue lines 135-185):
required-field validation, rejection for a missing or effectively
archived tenant, rejection of a partial amount at or above the rent,
the confirm dialog for a paid amount that differs from the rent, then
db.updatePayment or db.addPayment. The confirm answer and the fresh
record id are explicit arguments. -/
def addOrUpdatePayment (properties : List Property) (tenants : List Tenant)
    (payments : List RentPayment) (np : NewPayment) (isEditing : Bool)
    (editingPaymentId : Option String) (confirmPaid : Bool)
    (newId : String) : Except PaymentError (List RentPayment) :=
  match np.amount, np.date with
  | some amount, some date =>
    if np.tenantId == "" || np.status == "" || np.month == "" then
      Except.error PaymentError.validationFailed
    else
      match tenants.find? (fun t => t.id == np.tenantId) with
      | none => Except.error PaymentError.tenantArchived
      | some selectedTenant =>
        if isTenantEffectivelyArchived properties (some selectedTenant) then
          Except.error PaymentError.tenantArchived
        else if np.status == "partial"
            && decide (selectedTenant.rent ≤ amount) then
          Except.error PaymentError.amountExceedsRent
        else if np.status == "paid" && !(amount == selectedTenant.rent)
            && !confirmPaid then
          Except.error PaymentError.notConfirmed
        else
          let payment : RentPayment :=
            ⟨(match isEditing, editingPaymentId with
              | true, some pid => pid
              | _, _ => newId),
              np.tenantId, amount, date, np.status, np.month, np.archive⟩
          if isEditing then Except.ok (Db.updatePayment payments payment).1
          else Except.ok (Db.addPayment payments payment)
  | _, _ => Except.error PaymentError.validationFailed

/-- The payments collection after an addOrUpdatePayment attempt: the new
collection on success, the untouched previous collection when the
operation was rejected before any storage call. -/
def paymentsAfterSubmit (properties : List Property) (tenants : List Tenant)
    (payments : List RentPayment) (np : NewPayment) (isEditing : Bool)
    (editingPaymentId : Option String) (confirmPaid : Bool)
    (newId : String) : List RentPayment :=
  match addOrUpdatePayment properties tenants payments np isEditing
      editingPaymentId confirmPaid newId with
  | Except.ok result => result
  | Except.error _ => payments

end RentTracking

/-- Sample property that is not archived, for concrete instantiations. -/
def sampleActiveProperty : Property :=
  ⟨"P1", "Sunrise House", "1 Main Street", 4, 2, false⟩

/-- Sample property that is archived. -/
def sampleArchivedProperty : Property :=
  ⟨"P2", "Old Mill", "9 River Road", 2, 1, true⟩

/-- Sample tenant of the active property, individually archived. -/
def sampleArchivedTenant : Tenant :=
  ⟨"T0", "Bea", 800, 0, 10, "contract active", "P1", 1, "All Rooms", true⟩

/-- Sample active tenant of the active property. -/
def sampleActiveTenant : Tenant :=
  ⟨"T1", "Ada", 1000, 0, 10, "contract active", "P1", 1, "All Rooms", false⟩

/-- Sample tenant of the archived property, not individually archived. -/
def sampleTenantInArchivedProperty : Tenant :=
  ⟨"T2", "Cal", 500, 0, 10, "contract active", "P2", 1, "All Rooms", false⟩

/-- Sample tenant whose property reference resolves to nothing. -/
def sampleDanglingTenant : Tenant :=
  ⟨"T3", "Dot", 700, 0, 10, "contract active", "PX", 1, "All Rooms", false⟩

/-- Sample payment of the active tenant. -/
def samplePayment : RentPayment :=
  ⟨"PAY1", "T1", 1000, 5, "paid", "January", false⟩

/-- Sample payment of a different tenant. -/
def sampleOtherPayment : RentPayment :=
  ⟨"PAY2", "T9", 300, 7, "pending", "January", false⟩

/-- Sample user record. -/
def sampleUser : User :=
  ⟨"U1", "alice", "Alice", "password123"⟩

/-- Sample second user with a different username, to put records after a
duplicate match in the collection. -/
def sampleSecondUser : User :=
  ⟨"U2", "bob", "Bob", "hunter2"⟩

/-- Sample user whose username collides with the first sample user. -/
def sampleDupUser : User :=
  ⟨"U3", "alice", "Alice Again", "letmein"⟩

/-- Sample todo record. -/
def sampleTodo : TodoItem :=
  ⟨"TD1", "Fix the tap", false, 3⟩

/-- Sample payment form submission targeting the tenant of the archived
property. -/
def sampleArchivedFormPayment : RentTracking.NewPayment :=
  ⟨"T2", some 500, some 5, "paid", "January", false⟩

/-- Sample partial payment form submission at the full rent of the active
tenant. -/
def samplePartialFormPayment : RentTracking.NewPayment :=
  ⟨"T1", some 1000, some 5, "partial", "January", false⟩

/-- Claim C1: for every tenant in the snapshot, the effective archived
status equals the individual archived flag disjoined with the archived
status of the referenced property; a tenant with the individual flag set
is always effectively archived, and a tenant whose property resolves to a
non-archived record is effectively archived exactly when its individual
flag is set. -/
theorem claim_C1 (properties : List Property) (t : Tenant) :
    TenantList.isEffectivelyArchived properties t
        = (t.archive
            || TenantList.getPropertyArchivedStatus properties t.propertyId)
    ∧ (t.archive = true →
        TenantList.isEffectivelyArchived properties t = true)
    ∧ (∀ p : Property,
        properties.find? (fun q => q.id == t.propertyId) = some p →
        p.archive = false →
        TenantList.isEffectivelyArchived properties t = t.archive) := by
  refine ⟨rfl, ?_, ?_⟩
  · intro h
    simp [TenantList.isEffectivelyArchived, h]
  · intro p hfind harch
    simp [TenantList.isEffectivelyArchived,
      TenantList.getPropertyArchivedStatus, hfind, harch]

/-- Witness for claim C1 at concrete snapshots: an individually archived
tenant is effectively archived, and an active tenant of an active
property keeps its own flag. -/
theorem claim_C1_witness :
    TenantList.isEffectivelyArchived [sampleActiveProperty]
        sampleArchivedTenant = true
    ∧ TenantList.isEffectivelyArchived [sampleActiveProperty]
        sampleActiveTenant = sampleActiveTenant.archive := by
  constructor
  · exact (claim_C1 [sampleActiveProperty] sampleArchivedTenant).2.1 rfl
  · exact (claim_C1 [sampleActiveProperty] sampleActiveTenant).2.2
      sampleActiveProperty (by decide) rfl

/-- Counterexample to claim C2: a tenant whose property reference resolves
to no property, and whose own archived flag is false, is reported as not
effectively archived, because the property lookup is fail-open. -/
theorem claim_C2_counterexample :
    sampleDanglingTenant.archive = false
    ∧ ([] : List Property).find?
        (fun p => p.id == sampleDanglingTenant.propertyId) = none
    ∧ TenantList.isEffectivelyArchived [] sampleDanglingTenant = false := by
  decide

/-- Claim C2 amended: a tenant whose property reference resolves to no
property gets exactly its own archived flag (the missing property is
fail-open); the fail-closed treatment applies to a tenant reference that
resolves to no tenant record, which is reported as archived. -/
theorem claim_C2_amended (properties : List Property) (t : Tenant)
    (hmiss : properties.find? (fun p => p.id == t.propertyId) = none) :
    TenantList.isEffectivelyArchived properties t = t.archive
    ∧ AlertsTodo.isTenantEffectivelyArchived properties none = true := by
  constructor
  · simp [TenantList.isEffectivelyArchived,
      TenantList.getPropertyArchivedStatus, hmiss]
  · rfl

/-- Witness for the amended claim C2 at a concrete snapshot. -/
theorem claim_C2_amended_witness :
    TenantList.isEffectivelyArchived [sampleActiveProperty]
        sampleDanglingTenant = sampleDanglingTenant.archive
    ∧ AlertsTodo.isTenantEffectivelyArchived [sampleActiveProperty]
        none = true :=
  claim_C2_amended [sampleActiveProperty] sampleDanglingTenant (by decide)

/-- Counterexample to claim C3: for a tenant that is effectively archived
the code returns the sentinel string archive, which differs from the
sentinel archived stated in the claim. -/
theorem claim_C3_counterexample :
    TenantList.getLatestRentStatus [sampleArchivedProperty]
        [sampleTenantInArchivedProperty] [] "T2" = "archive"
    ∧ TenantList.getLatestRentStatus [sampleArchivedProperty]
        [sampleTenantInArchivedProperty] [] "T2" ≠ "archived" := by
  decide

/-- Claim C3 amended: for every tenant id that resolves in the snapshot,
an effectively archived tenant gets the sentinel archive regardless of
payment history; otherwise a tenant without payments gets the sentinel
no payments, and a tenant with payments gets the status of a payment of
maximal date among its payments. -/
theorem claim_C3_amended (properties : List Property) (tenants : List Tenant)
    (payments : List RentPayment) (tenantId : String) (t : Tenant)
    (hfind : tenants.find? (fun x => x.id == tenantId) = some t) :
    (TenantList.isEffectivelyArchived properties t = true →
        TenantList.getLatestRentStatus properties tenants payments tenantId
          = "archive")
    ∧ (TenantList.isEffectivelyArchived properties t = false →
        (payments.filter (fun p => p.tenantId == tenantId) = [] →
          TenantList.getLatestRentStatus properties tenants payments tenantId
            = "no payments")
        ∧ (payments.filter (fun p => p.tenantId == tenantId) ≠ [] →
            ∃ p ∈ payments.filter (fun q => q.tenantId == tenantId),
              TenantList.getLatestRentStatus properties tenants payments
                  tenantId = p.status
              ∧ ∀ q ∈ payments.filter (fun r => r.tenantId == tenantId),
                  q.date ≤ p.date)) := by
  have htrans : ∀ a b c : RentPayment,
      (fun a b : RentPayment => decide (b.date ≤ a.date)) a b = true →
      (fun a b : RentPayment => decide (b.date ≤ a.date)) b c = true →
      (fun a b : RentPayment => decide (b.date ≤ a.date)) a c = true := by
    intro a b c hab hbc
    simp only [decide_eq_true_eq] at hab hbc ⊢
    exact Nat.le_trans hbc hab
  have htot : ∀ a b : RentPayment,
      ((fun a b : RentPayment => decide (b.date ≤ a.date)) a b
        || (fun a b : RentPayment => decide (b.date ≤ a.date)) b a) = true := by
    intro a b
    rcases Nat.le_total b.date a.date with h | h <;> simp [h]
  constructor
  · intro harch
    simp [TenantList.getLatestRentStatus, hfind, harch]
  · intro hnarch
    constructor
    · intro hnil
      simp [TenantList.getLatestRentStatus, hfind, hnarch, hnil,
        List.mergeSort_nil]
    · intro hne
      have hperm := List.mergeSort_perm
        (payments.filter (fun p => p.tenantId == tenantId))
        (fun a b => decide (b.date ≤ a.date))
      have hsorted := @List.sorted_mergeSort RentPayment
        (fun a b => decide (b.date ≤ a.date)) htrans htot
        (payments.filter (fun p => p.tenantId == tenantId))
      cases hS : (payments.filter (fun p => p.tenantId == tenantId)).mergeSort
          (fun a b => decide (b.date ≤ a.date)) with
      | nil =>
        exfalso
        have hlen := hperm.length_eq
        rw [hS] at hlen
        exact hne (List.length_eq_zero.mp hlen.symm)
      | cons p rest =>
        refine ⟨p, ?_, ?_, ?_⟩
        · have hpS : p ∈ (payments.filter
              (fun p => p.tenantId == tenantId)).mergeSort
              (fun a b => decide (b.date ≤ a.date)) := by
            rw [hS]; exact List.mem_cons_self p rest
          exact hperm.mem_iff.mp hpS
        · simp [TenantList.getLatestRentStatus, hfind, hnarch, hS]
        · intro q hq
          have hqS : q ∈ p :: rest := by
            rw [← hS]
            exact hperm.symm.mem_iff.mp hq
          rcases List.mem_cons.mp hqS with h | h
          · subst h; exact Nat.le_refl _
          · rw [hS] at hsorted
            have hrel := List.rel_of_pairwise_cons hsorted h
            simpa using hrel

/-- Witness for the amended claim C3 at a concrete snapshot: an active
tenant with a single paid payment gets that status. -/
theorem claim_C3_amended_witness :
    TenantList.getLatestRentStatus [sampleActiveProperty]
        [sampleActiveTenant] [samplePayment] "T1" = "paid" := by
  obtain ⟨p, hmem, hres, -⟩ :=
    ((claim_C3_amended [sampleActiveProperty] [sampleActiveTenant]
        [samplePayment] "T1" sampleActiveTenant rfl).2 rfl).2 (by decide)
  have hp : p = samplePayment := by
    have hfilt : ([samplePayment].filter (fun q => q.tenantId == "T1"))
        = [samplePayment] := by decide
    rw [hfilt] at hmem
    exact List.mem_singleton.mp hmem
  rw [hres, hp]
  rfl

/-- Claim C4: a payment submission that passes local field validation but
whose tenant id resolves to no tenant, or to an effectively archived
tenant, is rejected with the tenant-archived error before any storage
call, and the payments collection is unchanged. -/
theorem claim_C4 (properties : List Property) (tenants : List Tenant)
    (payments : List RentPayment) (np : RentTracking.NewPayment)
    (isEditing : Bool) (editingPaymentId : Option String)
    (confirmPaid : Bool) (newId : String) (amount : Int) (date : Nat)
    (hA : np.amount = some amount) (hD : np.date = some date)
    (htid : ¬ np.tenantId = "") (hst : ¬ np.status = "")
    (hmo : ¬ np.month = "")
    (harch : tenants.find? (fun x => x.id == np.tenantId) = none
      ∨ ∃ t, tenants.find? (fun x => x.id == np.tenantId) = some t
          ∧ RentTracking.isTenantEffectivelyArchived properties (some t)
              = true) :
    RentTracking.addOrUpdatePayment properties tenants payments np isEditing
        editingPaymentId confirmPaid newId
      = Except.error RentTracking.PaymentError.tenantArchived
    ∧ RentTracking.paymentsAfterSubmit properties tenants payments np
        isEditing editingPaymentId confirmPaid newId = payments := by
  have h1 : (np.tenantId == "") = false := beq_eq_false_iff_ne.mpr htid
  have h2 : (np.status == "") = false := beq_eq_false_iff_ne.mpr hst
  have h3 : (np.month == "") = false := beq_eq_false_iff_ne.mpr hmo
  have hmain : RentTracking.addOrUpdatePayment properties tenants payments np
      isEditing editingPaymentId confirmPaid newId
      = Except.error RentTracking.PaymentError.tenantArchived := by
    rcases harch with h | ⟨t, ht, harchived⟩
    · simp [RentTracking.addOrUpdatePayment, hA, hD, h1, h2, h3, h]
    · simp [RentTracking.addOrUpdatePayment, hA, hD, h1, h2, h3, ht,
        harchived]
  exact ⟨hmain, by simp [RentTracking.paymentsAfterSubmit, hmain]⟩

/-- Witness for claim C4 at a concrete snapshot: recording a payment for
the tenant of an archived property is rejected and the payments
collection stays empty. -/
theorem claim_C4_witness :
    RentTracking.addOrUpdatePayment [sampleArchivedProperty]
        [sampleTenantInArchivedProperty] [] sampleArchivedFormPayment false
        none true "F1"
      = Except.error RentTracking.PaymentError.tenantArchived
    ∧ RentTracking.paymentsAfterSubmit [sampleArchivedProperty]
        [sampleTenantInArchivedProperty] [] sampleArchivedFormPayment false
        none true "F1" = [] :=
  claim_C4 [sampleArchivedProperty] [sampleTenantInArchivedProperty] []
    sampleArchivedFormPayment false none true "F1" 500 5 rfl rfl
    (by decide) (by decide) (by decide)
    (Or.inr ⟨sampleTenantInArchivedProperty, rfl, rfl⟩)

/-- Claim C10: a payment submission with the partial status whose amount
reaches or exceeds the rent of the resolved, non-archived tenant is
rejected before any storage call, and the payments collection is
unchanged. -/
theorem claim_C10 (properties : List Property) (tenants : List Tenant)
    (payments : List RentPayment) (np : RentTracking.NewPayment)
    (isEditing : Bool) (editingPaymentId : Option String)
    (confirmPaid : Bool) (newId : String) (amount : Int) (date : Nat)
    (t : Tenant)
    (hA : np.amount = some amount) (hD : np.date = some date)
    (htid : ¬ np.tenantId = "") (hmo : ¬ np.month = "")
    (hfind : tenants.find? (fun x => x.id == np.tenantId) = some t)
    (hnarch : RentTracking.isTenantEffectivelyArchived properties (some t)
        = false)
    (hstat : np.status = "partial") (hge : t.rent ≤ amount) :
    RentTracking.addOrUpdatePayment properties tenants payments np isEditing
        editingPaymentId confirmPaid newId
      = Except.error RentTracking.PaymentError.amountExceedsRent
    ∧ RentTracking.paymentsAfterSubmit properties tenants payments np
        isEditing editingPaymentId confirmPaid newId = payments := by
  have h1 : (np.tenantId == "") = false := beq_eq_false_iff_ne.mpr htid
  have h2 : (np.status == "") = false := by rw [hstat]; rfl
  have h3 : (np.month == "") = false := beq_eq_false_iff_ne.mpr hmo
  have hmain : RentTracking.addOrUpdatePayment properties tenants payments np
      isEditing editingPaymentId confirmPaid newId
      = Except.error RentTracking.PaymentError.amountExceedsRent := by
    simp [RentTracking.addOrUpdatePayment, hA, hD, h1, h2, h3, hfind,
      hnarch, hstat, hge]
  exact ⟨hmain, by simp [RentTracking.paymentsAfterSubmit, hmain]⟩

/-- Witness for claim C10 at a concrete snapshot: a partial payment whose
amount equals the full rent is rejected and the payments collection stays
empty. -/
theorem claim_C10_witness :
    RentTracking.addOrUpdatePayment [sampleActiveProperty]
        [sampleActiveTenant] [] samplePartialFormPayment false none true
        "F2"
      = Except.error RentTracking.PaymentError.amountExceedsRent
    ∧ RentTracking.paymentsAfterSubmit [sampleActiveProperty]
        [sampleActiveTenant] [] samplePartialFormPayment false none true
        "F2" = [] :=
  claim_C10 [sampleActiveProperty] [sampleActiveTenant] []
    samplePartialFormPayment false none true "F2" 1000 5
    sampleActiveTenant rfl rfl (by decide) (by decide) rfl rfl rfl
    (by decide)

/-- The payments collection produced by db.deletePayment is the
id-filtered collection, whether or not a write was needed. -/
theorem deletePayment_fst (payments : List RentPayment) (id : String) :
    (Db.deletePayment payments id).1
      = payments.filter (fun p => !(p.id == id)) := by
  by_cases h : (payments.filter (fun p => !(p.id == id))).length
      < payments.length
  · simp [Db.deletePayment, h]
  · have heq : (payments.filter (fun p => !(p.id == id))).length
        = payments.length :=
      Nat.le_antisymm (List.length_filter_le _ _) (Nat.le_of_not_lt h)
    have hfe := (@List.filter_sublist _ (fun p => !(p.id == id))
         payments).eq_of_length heq
    simp [Db.deletePayment, h, hfe]

/-- The tenants collection produced by db.deleteTenant is the id-filtered
collection, whether or not a write was needed. -/
theorem deleteTenant_fst (tenants : List Tenant) (id : String) :
    (Db.deleteTenant tenants id).1
      = tenants.filter (fun t => !(t.id == id)) := by
  by_cases h : (tenants.filter (fun t => !(t.id == id))).length
      < tenants.length
  · simp [Db.deleteTenant, h]
  · have heq : (tenants.filter (fun t => !(t.id == id))).length
        = tenants.length :=
      Nat.le_antisymm (List.length_filter_le _ _) (Nat.le_of_not_lt h)
    have hfe := (@List.filter_sublist _ (fun t => !(t.id == id))
         tenants).eq_of_length heq
    simp [Db.deleteTenant, h, hfe]

/-- Folding db.deletePayment over a list of payments removes exactly the
records whose id occurs in that list. -/
theorem foldl_deletePayment_eq_filter (assoc : List RentPayment) :
    ∀ payments : List RentPayment,
      assoc.foldl (fun acc payment => (Db.deletePayment acc payment.id).1)
          payments
        = payments.filter
            (fun p => assoc.all (fun q => !(p.id == q.id))) := by
  induction assoc with
  | nil =>
    intro payments
    simp
  | cons q qs ih =>
    intro payments
    rw [List.foldl_cons, deletePayment_fst, ih, List.filter_filter]
    refine List.filter_congr ?_
    intro x hx
    simp [List.all_cons, Bool.and_comm]

/-- Claim C5: for a tenant that resolves in the snapshot, the confirmed
interactive deletion removes every payment referencing the tenant and the
tenant record itself; afterwards no payment references the deleted id and
the tenants collection no longer contains it. Payment ids are assumed
pairwise distinct, as the spec states ids are unique per collection. -/
theorem claim_C5 (tenants : List Tenant) (payments : List RentPayment)
    (id : String) (t : Tenant)
    (hfind : tenants.find? (fun x => x.id == id) = some t)
    (hids : payments.Pairwise (fun a b => a.id ≠ b.id)) :
    (TenantList.deleteTenant tenants payments id true).2
        = payments.filter (fun p => !(p.tenantId == id))
    ∧ (TenantList.deleteTenant tenants payments id true).1
        = tenants.filter (fun x => !(x.id == id))
    ∧ ((TenantList.deleteTenant tenants payments id true).2.filter
          (fun p => p.tenantId == id)) = [] := by
  have hsym : Symmetric (fun a b : RentPayment => a.id ≠ b.id) :=
    fun _ _ h => Ne.symm h
  have hpay : (TenantList.deleteTenant tenants payments id true).2
      = payments.filter (fun p => !(p.tenantId == id)) := by
    by_cases hpos : 0 < (payments.filter (fun p => p.tenantId == id)).length
    · have hstep : (TenantList.deleteTenant tenants payments id true).2
          = (payments.filter (fun p => p.tenantId == id)).foldl
              (fun acc payment => (Db.deletePayment acc payment.id).1)
              payments := by
        simp [TenantList.deleteTenant, hfind, hpos]
      rw [hstep, foldl_deletePayment_eq_filter]
      refine List.filter_congr ?_
      intro x hx
      by_cases hxid : (x.tenantId == id) = true
      · have hxassoc : x ∈ payments.filter (fun p => p.tenantId == id) :=
          List.mem_filter.mpr ⟨hx, hxid⟩
        have hnall : ¬ ((payments.filter (fun p => p.tenantId == id)).all
            (fun q => !(x.id == q.id)) = true) := by
          intro hall
          have hself := List.all_eq_true.mp hall x hxassoc
          simp at hself
        rw [hxid, Bool.not_true]
        exact Bool.eq_false_iff.mpr hnall
      · have hxf : (x.tenantId == id) = false := by
          cases hxe : (x.tenantId == id) with
          | true => exact absurd hxe hxid
          | false => rfl
        rw [hxf, Bool.not_false]
        refine List.all_eq_true.mpr ?_
        intro qq hqq
        have hq := List.mem_filter.mp hqq
        have hne : x ≠ qq := by
          intro he
          rw [← he] at hq
          exact hxid hq.2
        have hidne : x.id ≠ qq.id :=
          List.Pairwise.forall hsym hids hx hq.1 hne
        simp [hidne]
    · have hnil : payments.filter (fun p => p.tenantId == id) = [] := by
        cases hfe : payments.filter (fun p => p.tenantId == id) with
        | nil => rfl
        | cons a l => rw [hfe] at hpos; simp at hpos
      have hres : (TenantList.deleteTenant tenants payments id true).2
          = payments := by
        simp [TenantList.deleteTenant, hfind, hnil]
      rw [hres]
      symm
      refine List.filter_eq_self.mpr ?_
      intro a ha
      have hna := List.filter_eq_nil_iff.mp hnil a ha
      simp only [Bool.not_eq_true] at hna
      simp [hna]
  have hten : (TenantList.deleteTenant tenants payments id true).1
      = tenants.filter (fun x => !(x.id == id)) := by
    have hdel := deleteTenant_fst tenants id
    by_cases hpos : 0 < (payments.filter (fun p => p.tenantId == id)).length
    · simp [TenantList.deleteTenant, hfind, hpos, hdel]
    · simp [TenantList.deleteTenant, hfind, hpos, hdel]
  refine ⟨hpay, hten, ?_⟩
  rw [hpay, List.filter_filter]
  calc payments.filter (fun a => (a.tenantId == id) && !(a.tenantId == id))
      = payments.filter (fun _ => false) :=
        List.filter_congr (fun x _ => Bool.and_not_self _)
    _ = [] := List.filter_false payments

/-- Witness for claim C5 at a concrete snapshot: deleting the sample
tenant removes its payment and keeps the unrelated payment. -/
theorem claim_C5_witness :
    (TenantList.deleteTenant [sampleActiveTenant]
        [samplePayment, sampleOtherPayment] "T1" true).2
      = [sampleOtherPayment]
    ∧ (TenantList.deleteTenant [sampleActiveTenant]
        [samplePayment, sampleOtherPayment] "T1" true).1 = [] := by
  obtain ⟨h1, h2, -⟩ := claim_C5 [sampleActiveTenant]
    [samplePayment, sampleOtherPayment] "T1" sampleActiveTenant rfl
    (by decide)
  exact ⟨by rw [h1]; decide, by rw [h2]; decide⟩

/-- Claim C6: the paid-this-month count of the monthly summary never
exceeds the active-tenant count, and it counts exactly the active tenants
whose in-month payment sum reaches their rent, where the sum ranges over
all of the payments of the tenant inside the month window. -/
theorem claim_C6 (properties : List Property) (tenants : List Tenant)
    (payments : List RentPayment) (startOfMonth endOfMonth : Nat) :
    (AlertsTodo.monthlyRentStatus properties tenants payments startOfMonth
        endOfMonth).paidTenantsCount
      ≤ (AlertsTodo.monthlyRentStatus properties tenants payments
          startOfMonth endOfMonth).activeTenantsCount
    ∧ (AlertsTodo.monthlyRentStatus properties tenants payments startOfMonth
        endOfMonth).paidTenantsCount
      = (AlertsTodo.activeTenantsOf properties tenants).countP
          (fun tenant => decide (tenant.rent ≤
            AlertsTodo.tenantMonthSum payments startOfMonth endOfMonth
              tenant.id)) := by
  cases tenants with
  | nil => simp [AlertsTodo.monthlyRentStatus, AlertsTodo.activeTenantsOf]
  | cons a l =>
    have hcond : (((a :: l).length == 0) = false) := by simp
    constructor
    · simp only [AlertsTodo.monthlyRentStatus, hcond, Bool.false_eq_true,
        if_false]
      exact List.countP_le_length _
    · simp only [AlertsTodo.monthlyRentStatus, hcond, Bool.false_eq_true,
        if_false]

/-- Claim C7: for every users collection that already contains a record
whose username matches the new username up to lowercasing, wherever that
record sits, addUser fails with the duplicate message and leaves the
collection unchanged; and registering the same username twice from a
state without a match succeeds once, fails the second time, and leaves
exactly one matching record. -/
theorem claim_C7 (users : List User) (u1 u2 : User)
    (hsame : u2.username.toLower = u1.username.toLower) :
    (∀ (existing : List User) (w : User),
      (∃ u ∈ existing, u.username.toLower = w.username.toLower) →
        (Db.addUser existing w).success = false
        ∧ (Db.addUser existing w).message
            = some "Username is already taken."
        ∧ (Db.addUser existing w).users = existing)
    ∧ (users.find? (fun u => u.username.toLower == u1.username.toLower)
          = none →
        (Db.addUser users u1).success = true
        ∧ (Db.addUser (Db.addUser users u1).users u2).success = false
        ∧ (Db.addUser (Db.addUser users u1).users u2).users
            = (Db.addUser users u1).users
        ∧ ((Db.addUser (Db.addUser users u1).users u2).users.countP
              (fun u => u.username.toLower == u1.username.toLower)) = 1) := by
  constructor
  · rintro existing w ⟨u, hu, heq⟩
    cases hf : existing.find?
        (fun x => x.username.toLower == w.username.toLower) with
    | none =>
      exfalso
      have hcontra := List.find?_eq_none.mp hf u hu
      simp [heq] at hcontra
    | some v =>
      refine ⟨?_, ?_, ?_⟩ <;> simp [Db.addUser, hf]
  · intro hfresh
    have hpred : (fun u : User => u.username.toLower == u2.username.toLower)
        = (fun u : User => u.username.toLower == u1.username.toLower) := by
      funext u
      rw [hsame]
    have hfind2 : (users ++ [u1]).find?
        (fun u => u.username.toLower == u2.username.toLower) = some u1 := by
      rw [hpred, List.find?_append, hfresh]
      simp
    have hzero : users.countP
        (fun u => u.username.toLower == u1.username.toLower) = 0 :=
      List.countP_eq_zero.mpr (List.find?_eq_none.mp hfresh)
    refine ⟨?_, ?_, ?_, ?_⟩
    · simp [Db.addUser, hfresh]
    · simp [Db.addUser, hfresh, hfind2]
    · simp [Db.addUser, hfresh, hfind2]
    · simp [Db.addUser, hfresh, hfind2, List.countP_append, hzero]

/-- Witness for claim C7 at concrete states: a duplicate is rejected even
when the matching record sits first in the collection and is followed by
another user, and registering the sample user twice from an empty
collection leaves exactly one matching record. -/
theorem claim_C7_witness :
    (Db.addUser [sampleUser, sampleSecondUser] sampleDupUser).success = false
    ∧ (Db.addUser [sampleUser, sampleSecondUser] sampleDupUser).users
        = [sampleUser, sampleSecondUser]
    ∧ (Db.addUser (Db.addUser [] sampleUser).users sampleUser).success
        = false
    ∧ ((Db.addUser (Db.addUser [] sampleUser).users sampleUser).users.countP
        (fun u => u.username.toLower == sampleUser.username.toLower)) = 1 := by
  have h := claim_C7 [] sampleUser sampleUser rfl
  have hdup := h.1 [sampleUser, sampleSecondUser] sampleDupUser
    ⟨sampleUser, by decide, rfl⟩
  have htwice := h.2 rfl
  exact ⟨hdup.1, hdup.2.2, htwice.2.1, htwice.2.2.2⟩

/-- Counterexample to claim C8: db.updateUser with an unknown id does not
silently no-op; it surfaces a failure result with a message to the
caller, in the same shape the add operation uses for its duplicate
error. -/
theorem claim_C8_counterexample :
    (Db.updateUser [] sampleUser).success = false
    ∧ (Db.updateUser [] sampleUser).message = some "User not found." := by
  decide

/-- Claim C8 amended: for every entity type, update with an unknown id and
delete with an unknown id perform no storage write and leave the
collection unchanged; for Property, Tenant, Payment and Todo these are
warn-only no-ops not surfaced as errors, while updateUser additionally
reports the failure to the caller with a message, and the layer exposes
no user delete operation. -/
theorem claim_C8_amended (properties : List Property) (pr : Property)
    (tenants : List Tenant) (t : Tenant)
    (payments : List RentPayment) (pay : RentPayment)
    (todos : List TodoItem) (td : TodoItem)
    (users : List User) (u : User)
    (idP idT idPay idTd : String)
    (hup : properties.findIdx? (fun x => x.id == pr.id) = none)
    (hut : tenants.findIdx? (fun x => x.id == t.id) = none)
    (hupay : payments.findIdx? (fun x => x.id == pay.id) = none)
    (hutd : todos.findIdx? (fun x => x.id == td.id) = none)
    (huu : users.findIdx? (fun x => x.id == u.id) = none)
    (hdp : properties.all (fun p => !(p.id == idP)) = true)
    (hdt : tenants.all (fun x => !(x.id == idT)) = true)
    (hdpay : payments.all (fun p => !(p.id == idPay)) = true)
    (hdtd : todos.all (fun x => !(x.id == idTd)) = true) :
    Db.updateProperty properties pr = (properties, false)
    ∧ Db.updateTenant tenants t = (tenants, false)
    ∧ Db.updatePayment payments pay = (payments, false)
    ∧ Db.updateTodo todos td = (todos, false)
    ∧ Db.updateUser users u = ⟨false, some "User not found.", users⟩
    ∧ Db.deleteProperty properties idP = (properties, false)
    ∧ Db.deleteTenant tenants idT = (tenants, false)
    ∧ Db.deletePayment payments idPay = (payments, false)
    ∧ Db.deleteTodo todos idTd = (todos, false) := by
  refine ⟨?_, ?_, ?_, ?_, ?_, ?_, ?_, ?_, ?_⟩
  · simp [Db.updateProperty, hup]
  · simp [Db.updateTenant, hut]
  · simp [Db.updatePayment, hupay]
  · simp [Db.updateTodo, hutd]
  · simp [Db.updateUser, huu]
  · have hfe : properties.filter (fun p => !(p.id == idP)) = properties :=
      List.filter_eq_self.mpr (List.all_eq_true.mp hdp)
    simp [Db.deleteProperty, hfe]
  · have hfe : tenants.filter (fun x => !(x.id == idT)) = tenants :=
      List.filter_eq_self.mpr (List.all_eq_true.mp hdt)
    simp [Db.deleteTenant, hfe]
  · have hfe : payments.filter (fun p => !(p.id == idPay)) = payments :=
      List.filter_eq_self.mpr (List.all_eq_true.mp hdpay)
    simp [Db.deletePayment, hfe]
  · have hfe : todos.filter (fun x => !(x.id == idTd)) = todos :=
      List.filter_eq_self.mpr (List.all_eq_true.mp hdtd)
    simp [Db.deleteTodo, hfe]

/-- Witness for the amended claim C8 at concrete empty collections,
covering every update and delete operation of the layer. -/
theorem claim_C8_amended_witness :
    Db.updateProperty [] sampleActiveProperty = ([], false)
    ∧ Db.updateTenant [] sampleActiveTenant = ([], false)
    ∧ Db.updatePayment [] samplePayment = ([], false)
    ∧ Db.updateTodo [] sampleTodo = ([], false)
    ∧ Db.updateUser [] sampleUser = ⟨false, some "User not found.", []⟩
    ∧ Db.deleteProperty [] "P1" = ([], false)
    ∧ Db.deleteTenant [] "T1" = ([], false)
    ∧ Db.deletePayment [] "PAY1" = ([], false)
    ∧ Db.deleteTodo [] "TD1" = ([], false) :=
  claim_C8_amended [] sampleActiveProperty [] sampleActiveTenant []
    samplePayment [] sampleTodo [] sampleUser "P1" "T1" "PAY1" "TD1"
    rfl rfl rfl rfl rfl rfl rfl rfl rfl

/-- A found index is never below the start offset of findIdx?. -/
theorem findIdx?_start_le {α : Type} (p : α → Bool) :
    ∀ (l : List α) (j k : Nat), l.findIdx? p j = some k → j ≤ k := by
  intro l
  induction l with
  | nil =>
    intro j k h
    rw [List.findIdx?_nil] at h
    simp at h
  | cons a l ih =>
    intro j k h
    rw [List.findIdx?_cons] at h
    by_cases hpa : p a = true
    · rw [if_pos hpa] at h
      have hjk := Option.some.inj h
      subst hjk
      exact Nat.le_refl _
    · rw [if_neg hpa] at h
      exact Nat.le_of_succ_le (ih (j + 1) k h)

/-- Setting the found element of a list to a value that still satisfies
the predicate leaves the first found index unchanged. -/
theorem findIdx?_set_self {α : Type} (p : α → Bool) (x : α)
    (hx : p x = true) :
    ∀ (l : List α) (i j : Nat), l.findIdx? p j = some (j + i) →
      (l.set i x).findIdx? p j = some (j + i) := by
  intro l
  induction l with
  | nil =>
    intro i j h
    rw [List.findIdx?_nil] at h
    simp at h
  | cons a l ih =>
    intro i j h
    rw [List.findIdx?_cons] at h
    by_cases hpa : p a = true
    · rw [if_pos hpa] at h
      have hji := Option.some.inj h
      have hi : i = 0 := by omega
      subst hi
      have hset0 : (a :: l).set 0 x = x :: l := rfl
      rw [hset0, List.findIdx?_cons, if_pos hx]
      simp
    · rw [if_neg hpa] at h
      have hge : j + 1 ≤ j + i := findIdx?_start_le p l (j + 1) (j + i) h
      obtain ⟨i', rfl⟩ : ∃ i', i = i' + 1 := ⟨i - 1, by omega⟩
      have hset : (a :: l).set (i' + 1) x = a :: l.set i' x := rfl
      rw [hset, List.findIdx?_cons, if_neg hpa]
      have h' : l.findIdx? p (j + 1) = some ((j + 1) + i') := by
        rw [h]
        congr 1
        omega
      rw [ih i' (j + 1) h']
      congr 1
      omega

/-- Claim C9: for every entity type the id lookup-and-replace update is
idempotent; applying the same record twice produces the same final
collection and result as applying it once. -/
theorem claim_C9 (tenants : List Tenant) (t : Tenant)
    (properties : List Property) (pr : Property)
    (payments : List RentPayment) (pay : RentPayment)
    (users : List User) (u : User) (todos : List TodoItem) (td : TodoItem) :
    Db.updateTenant (Db.updateTenant tenants t).1 t
        = Db.updateTenant tenants t
    ∧ Db.updateProperty (Db.updateProperty properties pr).1 pr
        = Db.updateProperty properties pr
    ∧ Db.updatePayment (Db.updatePayment payments pay).1 pay
        = Db.updatePayment payments pay
    ∧ Db.updateUser (Db.updateUser users u).users u = Db.updateUser users u
    ∧ Db.updateTodo (Db.updateTodo todos td).1 td
        = Db.updateTodo todos td := by
  refine ⟨?_, ?_, ?_, ?_, ?_⟩
  · cases h : tenants.findIdx? (fun x => x.id == t.id) with
    | none => simp [Db.updateTenant, h]
    | some i =>
      have h0 : tenants.findIdx? (fun x => x.id == t.id) = some (0 + i) := by
        rw [Nat.zero_add]
        exact h
      have h2 := findIdx?_set_self (fun x => x.id == t.id) t (by simp)
        tenants i 0 h0
      rw [Nat.zero_add] at h2
      simp [Db.updateTenant, h, h2, List.set_set]
  · cases h : properties.findIdx? (fun x => x.id == pr.id) with
    | none => simp [Db.updateProperty, h]
    | some i =>
      have h0 : properties.findIdx? (fun x => x.id == pr.id)
          = some (0 + i) := by
        rw [Nat.zero_add]
        exact h
      have h2 := findIdx?_set_self (fun x => x.id == pr.id) pr (by simp)
        properties i 0 h0
      rw [Nat.zero_add] at h2
      simp [Db.updateProperty, h, h2, List.set_set]
  · cases h : payments.findIdx? (fun x => x.id == pay.id) with
    | none => simp [Db.updatePayment, h]
    | some i =>
      have h0 : payments.findIdx? (fun x => x.id == pay.id)
          = some (0 + i) := by
        rw [Nat.zero_add]
        exact h
      have h2 := findIdx?_set_self (fun x => x.id == pay.id) pay (by simp)
        payments i 0 h0
      rw [Nat.zero_add] at h2
      simp [Db.updatePayment, h, h2, List.set_set]
  · cases h : users.findIdx? (fun x => x.id == u.id) with
    | none => simp [Db.updateUser, h]
    | some i =>
      have h0 : users.findIdx? (fun x => x.id == u.id) = some (0 + i) := by
        rw [Nat.zero_add]
        exact h
      have h2 := findIdx?_set_self (fun x => x.id == u.id) u (by simp)
        users i 0 h0
      rw [Nat.zero_add] at h2
      simp [Db.updateUser, h, h2, List.set_set]
  · cases h : todos.findIdx? (fun x => x.id == td.id) with
    | none => simp [Db.updateTodo, h]
    | some i =>
      have h0 : todos.findIdx? (fun x => x.id == td.id) = some (0 + i) := by
        rw [Nat.zero_add]
        exact h
      have h2 := findIdx?_set_self (fun x => x.id == td.id) td (by simp)
        todos i 0 h0
      rw [Nat.zero_add] at h2
      simp [Db.updateTodo, h, h2, List.set_set]

end Abode
